import Mathlib

/-
  Shallow embedding of the go-solid demonstration programs
  (muhammad-habib/go-solid): single-file Go examples of the SOLID
  principles over a toy employee domain.

  Modelling conventions:
  * console output is a `List String`, one element per printed line,
    without the trailing newline;
  * a Go `error` result is an `Option String` (`none` is the nil error,
    `some e` an error whose message is `e`);
  * Go `int` is `Int`, Go `float64` fields are carried as `Float` but no
    claim touches their values;
  * a Go interface type is a record of the functions the interface
    declares, and each concrete implementer in the source provides one
    such record; the ASCII apostrophe of the Go format strings is written
    with the escape \x27.
-/

namespace OCP

/- 2.OCP/main.go, good-practice section. -/

/-- The implementers of the `role` interface declared in the file:
`swe` and `sswe` (both empty structs). -/
inductive role where
  | swe
  | sswe
deriving DecidableEq

/-- `func (s swe) getSalary() int { return 3000 }` and
`func (s sswe) getSalary() int { return 5000 }`. -/
def role.getSalary : role → Int
  | .swe => 3000
  | .sswe => 5000

/-- `type employee struct { name string; role role }`.  The `role` field
holds a Go interface value, whose zero value is the nil interface;
`none` models nil. -/
structure employee where
  name : String
  role : Option role

/-- `func (em employee) getSalary() int { return em.role.getSalary() }`.
A method call through a nil interface value panics at run time; the
panic is modelled as `none`, a normal return as `some`. -/
def employee.getSalary (em : employee) : Option Int :=
  match em.role with
  | some r => some r.getSalary
  | none => none

end OCP

namespace LSP

/- 3.LSP/main.go. -/

/-- `type fullTimeEmployee struct { name string; salary int }`. -/
structure fullTimeEmployee where
  name : String
  salary : Int

/-- `func (em fullTimeEmployee) getName() string { return em.name }`. -/
def fullTimeEmployee.getName (em : fullTimeEmployee) : String := em.name

/-- `func (em fullTimeEmployee) getSalary() int { return em.salary }`. -/
def fullTimeEmployee.getSalary (em : fullTimeEmployee) : Int := em.salary

/-- `type contractorEmployee struct { name string; hourlyRate int;
hoursWorked int }`. -/
structure contractorEmployee where
  name : String
  hourlyRate : Int
  hoursWorked : Int

/-- `func (cem contractorEmployee) getName() string { return cem.name }`. -/
def contractorEmployee.getName (cem : contractorEmployee) : String := cem.name

/-- `func (cem contractorEmployee) getSalary() int
{ return cem.hourlyRate * cem.hoursWorked }`. -/
def contractorEmployee.getSalary (cem : contractorEmployee) : Int :=
  cem.hourlyRate * cem.hoursWorked

/-- A value of the `baseEmployee` interface type: the file declares
exactly two implementers. -/
inductive baseEmployee where
  | fullTime (em : fullTimeEmployee)
  | contractor (cem : contractorEmployee)

/-- Dynamic dispatch of `getName` through the interface. -/
def baseEmployee.getName : baseEmployee → String
  | .fullTime em => em.getName
  | .contractor cem => cem.getName

/-- Dynamic dispatch of `getSalary` through the interface. -/
def baseEmployee.getSalary : baseEmployee → Int
  | .fullTime em => em.getSalary
  | .contractor cem => cem.getSalary

/-- `printEmployeeInfo` prints the single line
`fmt.Printf("Name: %s, Salary: %d\n", em.getName(), em.getSalary())`. -/
def printEmployeeInfo (em : baseEmployee) : List String :=
  ["Name: " ++ em.getName ++ ", Salary: " ++ toString em.getSalary]

end LSP

namespace ISP

/- 4.ISP/main.go, good-practice section. -/

/-- `type Developer struct { Name string; Salary float64 }`. -/
structure Developer where
  Name : String
  Salary : Float

/-- `func (d Developer) GetName() string { return d.Name }`. -/
def Developer.GetName (d : Developer) : String := d.Name

/-- `func (d Developer) CalculateMonthlyPay() float64 { return d.Salary }`. -/
def Developer.CalculateMonthlyPay (d : Developer) : Float := d.Salary

/-- `type Manager struct { Name string; Salary float64 }`. -/
structure Manager where
  Name : String
  Salary : Float

/-- `func (m Manager) GetName() string { return m.Name }`. -/
def Manager.GetName (m : Manager) : String := m.Name

/-- `func (m Manager) CalculateMonthlyPay() float64 { return m.Salary }`. -/
def Manager.CalculateMonthlyPay (m : Manager) : Float := m.Salary

/-- `type Intern struct { Name string }`. -/
structure Intern where
  Name : String

/-- `func (i Intern) GetName() string { return i.Name }`. -/
def Intern.GetName (i : Intern) : String := i.Name

/-- A value of the `Employee` interface type: its one capability is
`GetName() string`, a nullary method, so the value is determined by the
string it returns. -/
structure EmployeeI where
  GetName : String

/-- A `Developer` used through the `Employee` interface. -/
def Developer.asEmployee (d : Developer) : EmployeeI := ⟨d.Name⟩

/-- A `Manager` used through the `Employee` interface. -/
def Manager.asEmployee (m : Manager) : EmployeeI := ⟨m.Name⟩

/-- An `Intern` used through the `Employee` interface. -/
def Intern.asEmployee (i : Intern) : EmployeeI := ⟨i.Name⟩

/-- `func (m Manager) AssignTask(task string, assignee Employee) error`:
prints `Manager %s assigned \x27%s\x27 to %s` and returns nil. -/
def Manager.AssignTask (m : Manager) (task : String) (assignee : EmployeeI) :
    List String × Option String :=
  (["Manager " ++ m.Name ++ " assigned \x27" ++ task ++ "\x27 to " ++
      assignee.GetName], none)

/-- A value of the `TaskAssigner` interface type:
`AssignTask(task string, assignee Employee) error`, returning its printed
lines alongside the Go error. -/
structure TaskAssignerI where
  AssignTask : String → EmployeeI → List String × Option String

/-- A `Manager` used through the `TaskAssigner` interface. -/
def Manager.asTaskAssigner (m : Manager) : TaskAssignerI :=
  ⟨fun task assignee => m.AssignTask task assignee⟩

/-- `func AssignWork(assigner TaskAssigner, dev Employee, task string)
{ _ = assigner.AssignTask(task, dev) }`: the returned error is assigned
to the blank identifier, so only the lines the assigner printed remain. -/
def AssignWork (assigner : TaskAssignerI) (dev : EmployeeI) (task : String) :
    List String :=
  (assigner.AssignTask task dev).1

/-- A `TaskAssigner` value whose operation prints nothing and fails; a
legitimate input to `AssignWork`, which accepts any `TaskAssigner`. -/
def failingAssigner : TaskAssignerI :=
  ⟨fun _ _ => ([], some "boom")⟩

/-- The formalisation of the error-handling claim for the caller
`AssignWork`: whenever the fallible operation reports a failure, the
caller prints a message of its own, that is, its output is strictly
longer than the lines printed by the operation itself. -/
def assignWorkPrintsOnFailure (assigner : TaskAssignerI) (dev : EmployeeI)
    (task : String) : Prop :=
  (assigner.AssignTask task dev).2.isSome = true →
    (assigner.AssignTask task dev).1.length < (AssignWork assigner dev task).length

/-- The concrete types of the good-practice section. -/
inductive ConcreteType where
  | developer
  | manager
  | intern
deriving DecidableEq

/-- The method set each concrete type declares in the file. -/
def methodSet : ConcreteType → List String
  | .developer => ["GetName", "CalculateMonthlyPay"]
  | .manager => ["GetName", "CalculateMonthlyPay", "AssignTask"]
  | .intern => ["GetName"]

/-- Go structural conformance to `interface Employee { GetName() string }`. -/
def implementsEmployee (t : ConcreteType) : Bool :=
  (methodSet t).contains "GetName"

/-- Go structural conformance to `interface PaidEmployee { Employee;
CalculateMonthlyPay() float64 }`. -/
def implementsPaidEmployee (t : ConcreteType) : Bool :=
  implementsEmployee t && (methodSet t).contains "CalculateMonthlyPay"

/-- Go structural conformance to `interface TaskAssigner
{ AssignTask(task string, assignee Employee) error }`. -/
def implementsTaskAssigner (t : ConcreteType) : Bool :=
  (methodSet t).contains "AssignTask"

/-- A call the driver makes through the segregated interfaces. -/
inductive Call where
  | processPayroll (arg : ConcreteType)
  | assignWork (assigner : ConcreteType) (assignee : ConcreteType) (task : String)

/-- Go type-checks a call against the parameter types of
`ProcessPayroll(e PaidEmployee)` and
`AssignWork(assigner TaskAssigner, dev Employee, task string)`. -/
def Call.wellTyped : Call → Bool
  | .processPayroll a => implementsPaidEmployee a
  | .assignWork asr ase _ => implementsTaskAssigner asr && implementsEmployee ase

/-- The four active (uncommented) calls of `main` in 4.ISP/main.go, in
order: `ProcessPayroll(dev)`, `ProcessPayroll(mgr)`,
`AssignWork(mgr, dev, "Implement new feature")`,
`AssignWork(dev, intern, "Review code")`. -/
def mainCalls : List Call :=
  [.processPayroll .developer,
   .processPayroll .manager,
   .assignWork .manager .developer "Implement new feature",
   .assignWork .developer .intern "Review code"]

/-- The Go compiler accepts `main` only if every call in it is
well-typed. -/
def mainWellTyped : Bool := mainCalls.all Call.wellTyped

end ISP

namespace DIP

/- src/unnamed/part_000 (the DIP example, 5.DIP/main.go),
good-practice section. -/

/-- `type Employee struct { Name string; Salary int }`. -/
structure Employee where
  Name : String
  Salary : Int
deriving DecidableEq

/-- A value of the `EmployeeRepository` interface type:
`Save(emp Employee) error` and
`GetByName(name string) (Employee, error)`, each operation returning its
printed lines alongside the Go results. -/
structure EmployeeRepository where
  Save : Employee → List String × Option String
  GetByName : String → List String × (Employee × Option String)

/-- `type MySQLRepository struct{}` with its two methods: `Save` prints
`💾 Saving employee \x27%s\x27 to MySQL database` and returns nil;
`GetByName` prints `🔍 Fetching employee \x27%s\x27 from MySQL database`
and returns `Employee{Name: name, Salary: 5000}, nil`. -/
def MySQLRepository : EmployeeRepository where
  Save emp :=
    (["💾 Saving employee \x27" ++ emp.Name ++ "\x27 to MySQL database"], none)
  GetByName name :=
    (["🔍 Fetching employee \x27" ++ name ++ "\x27 from MySQL database"],
     ({ Name := name, Salary := 5000 }, none))

/-- `type PostgresRepository struct{}` with its two methods, identical to
the MySQL ones except for the `PostgreSQL database` label. -/
def PostgresRepository : EmployeeRepository where
  Save emp :=
    (["💾 Saving employee \x27" ++ emp.Name ++ "\x27 to PostgreSQL database"], none)
  GetByName name :=
    (["🔍 Fetching employee \x27" ++ name ++ "\x27 from PostgreSQL database"],
     ({ Name := name, Salary := 5000 }, none))

/-- `type MongoRepository struct{}` with its two methods, identical to
the MySQL ones except for the `MongoDB database` label. -/
def MongoRepository : EmployeeRepository where
  Save emp :=
    (["💾 Saving employee \x27" ++ emp.Name ++ "\x27 to MongoDB database"], none)
  GetByName name :=
    (["🔍 Fetching employee \x27" ++ name ++ "\x27 from MongoDB database"],
     ({ Name := name, Salary := 5000 }, none))

/-- `type EmployeeManager struct { repository EmployeeRepository }`. -/
structure EmployeeManager where
  repository : EmployeeRepository

/-- `func (em EmployeeManager) AddEmployee(emp Employee)`: calls
`em.repository.Save(emp)`; on a non-nil error prints
`Error saving employee: <err>` (the two `Println` arguments joined by a
space) and stops. -/
def EmployeeManager.AddEmployee (em : EmployeeManager) (emp : Employee) :
    List String :=
  let r := em.repository.Save emp
  match r.2 with
  | some e => r.1 ++ ["Error saving employee: " ++ e]
  | none => r.1

/-- `func (em EmployeeManager) FindEmployee(name string)`: calls
`em.repository.GetByName(name)`; on a non-nil error prints
`Error fetching employee: <err>` and returns; otherwise prints
`✅ Found employee: %s, Salary: %d`. -/
def EmployeeManager.FindEmployee (em : EmployeeManager) (name : String) :
    List String :=
  let r := em.repository.GetByName name
  match r.2.2 with
  | some e => r.1 ++ ["Error fetching employee: " ++ e]
  | none =>
      r.1 ++ ["✅ Found employee: " ++ r.2.1.Name ++ ", Salary: " ++
        toString r.2.1.Salary]

/-- A repository value whose operations print nothing and fail; a
legitimate value of the `EmployeeRepository` interface, which the manager
accepts by construction. -/
def failingRepo : EmployeeRepository where
  Save _ := ([], some "save failed")
  GetByName _ := ([], ({ Name := "", Salary := 0 }, some "not found"))

/-- One string occurs inside another (the character list of the first is
an infix of the character list of the second). -/
def strContains (line sub : String) : Prop :=
  List.IsInfix sub.toList line.toList

instance (line sub : String) : Decidable (strContains line sub) :=
  List.decidableInfix sub.toList line.toList

end DIP

/-- C1 The ISP driver does not type-check: its final call
`AssignWork(dev, intern, "Review code")` passes a `Developer` as the
assigner although `Developer` does not implement `TaskAssigner`, so the
file fails to compile, while the first three calls of `main` are
well-typed. -/
theorem ispMain_fails_typecheck :
    ISP.mainWellTyped = false ∧
    ISP.Call.wellTyped (.assignWork .developer .intern "Review code") = false ∧
    (ISP.mainCalls.take 3).all ISP.Call.wellTyped = true := by
  decide

/-- C3 The contractor implementer computes compensation as hourly rate
times hours worked, the full-time implementer returns its stored salary,
and a contractor with rate 120 and 10 hours gets 1200. -/
theorem getSalary_formulas :
    (∀ cem : LSP.contractorEmployee,
        cem.getSalary = cem.hourlyRate * cem.hoursWorked) ∧
    (∀ em : LSP.fullTimeEmployee, em.getSalary = em.salary) ∧
    LSP.contractorEmployee.getSalary ⟨"Ahmed", 120, 10⟩ = 1200 :=
  ⟨fun _ => rfl, fun _ => rfl, by decide⟩

/-- C4 Every backend's `GetByName` returns the queried name with the
fixed placeholder salary 5000 and a nil error. -/
theorem getByName_fixed :
    (∀ name : String, (DIP.MySQLRepository.GetByName name).2 =
        ({ Name := name, Salary := 5000 }, none)) ∧
    (∀ name : String, (DIP.PostgresRepository.GetByName name).2 =
        ({ Name := name, Salary := 5000 }, none)) ∧
    (∀ name : String, (DIP.MongoRepository.GetByName name).2 =
        ({ Name := name, Salary := 5000 }, none)) :=
  ⟨fun _ => rfl, fun _ => rfl, fun _ => rfl⟩

/-- C5 Every provided implementer of the fallible operations `Save`,
`GetByName` and `AssignTask` returns a nil error on every input. -/
theorem implementers_always_succeed :
    (∀ emp : DIP.Employee, (DIP.MySQLRepository.Save emp).2 = none) ∧
    (∀ emp : DIP.Employee, (DIP.PostgresRepository.Save emp).2 = none) ∧
    (∀ emp : DIP.Employee, (DIP.MongoRepository.Save emp).2 = none) ∧
    (∀ name : String, ((DIP.MySQLRepository.GetByName name).2).2 = none) ∧
    (∀ name : String, ((DIP.PostgresRepository.GetByName name).2).2 = none) ∧
    (∀ name : String, ((DIP.MongoRepository.GetByName name).2).2 = none) ∧
    (∀ (m : ISP.Manager) (task : String) (a : ISP.EmployeeI),
        (m.AssignTask task a).2 = none) :=
  ⟨fun _ => rfl, fun _ => rfl, fun _ => rfl, fun _ => rfl, fun _ => rfl,
   fun _ => rfl, fun _ _ _ => rfl⟩

/-- C6 counterexample: `AssignWork` does not print a message when the
operation fails — with an assigner whose `AssignTask` prints nothing and
returns an error, `AssignWork` prints nothing at all, so the caller adds
no message of its own. -/
theorem assignWork_silent_on_failure :
    ¬ ISP.assignWorkPrintsOnFailure ISP.failingAssigner ⟨"Charlie"⟩ "Review code" :=
  fun h => absurd (h rfl) (by decide)

/-- C6 amended: `AddEmployee` and `FindEmployee` print exactly one error
message after the operation output and abandon the operation on failure
(in particular `FindEmployee` omits the found line), with no retry and no
error returned to their own caller; `AssignWork` also neither retries nor
propagates, but discards the error without printing any message: its
output is exactly what the assigner printed. -/
theorem callers_on_failure :
    (∀ (repo : DIP.EmployeeRepository) (emp : DIP.Employee) (e : String),
        (repo.Save emp).2 = some e →
          (DIP.EmployeeManager.mk repo).AddEmployee emp =
            (repo.Save emp).1 ++ ["Error saving employee: " ++ e]) ∧
    (∀ (repo : DIP.EmployeeRepository) (name e : String),
        ((repo.GetByName name).2).2 = some e →
          (DIP.EmployeeManager.mk repo).FindEmployee name =
            (repo.GetByName name).1 ++ ["Error fetching employee: " ++ e]) ∧
    (∀ (assigner : ISP.TaskAssignerI) (dev : ISP.EmployeeI) (task : String),
        ISP.AssignWork assigner dev task = (assigner.AssignTask task dev).1) := by
  refine ⟨?_, ?_, fun _ _ _ => rfl⟩
  · intro repo emp e h
    simp only [DIP.EmployeeManager.AddEmployee, h]
  · intro repo name e h
    simp only [DIP.EmployeeManager.FindEmployee, h]

/-- C6 witness: the amended behaviour at a concrete failing repository. -/
theorem callers_on_failure_witness :
    (DIP.failingRepo.Save { Name := "Mohamed", Salary := 5000 }).2 =
      some "save failed" ∧
    (DIP.EmployeeManager.mk DIP.failingRepo).AddEmployee
        { Name := "Mohamed", Salary := 5000 } =
      (DIP.failingRepo.Save { Name := "Mohamed", Salary := 5000 }).1 ++
        ["Error saving employee: save failed"] ∧
    ((DIP.failingRepo.GetByName "Mohamed").2).2 = some "not found" ∧
    (DIP.EmployeeManager.mk DIP.failingRepo).FindEmployee "Mohamed" =
      (DIP.failingRepo.GetByName "Mohamed").1 ++
        ["Error fetching employee: not found"] :=
  ⟨rfl,
   callers_on_failure.1 DIP.failingRepo { Name := "Mohamed", Salary := 5000 }
     "save failed" rfl,
   rfl,
   callers_on_failure.2.1 DIP.failingRepo "Mohamed" "not found" rfl⟩

/-- C7 The `swe` tier returns 3000 and the `sswe` tier 5000, and every
employee holding a role implementer delegates `getSalary` to it. -/
theorem role_salaries_and_delegation :
    OCP.role.getSalary .swe = 3000 ∧
    OCP.role.getSalary .sswe = 5000 ∧
    (∀ (em : OCP.employee) (r : OCP.role),
        em.role = some r → em.getSalary = some r.getSalary) := by
  refine ⟨rfl, rfl, ?_⟩
  intro em r h
  unfold OCP.employee.getSalary
  rw [h]

/-- C7 witness: the delegation at the driver's first employee. -/
theorem role_salaries_and_delegation_witness :
    OCP.employee.getSalary { name := "Mohamed", role := some .swe } =
      some 3000 :=
  role_salaries_and_delegation.2.2
    { name := "Mohamed", role := some .swe } OCP.role.swe rfl

/-- C9 The payroll consumer `ProcessPayroll` rejects `Intern` (which
satisfies only the identity capability) at type-check time and accepts
`Developer` and `Manager` (which satisfy `PaidEmployee`). -/
theorem processPayroll_capability_gate :
    ISP.implementsPaidEmployee .intern = false ∧
    ISP.Call.wellTyped (.processPayroll .intern) = false ∧
    ISP.implementsEmployee .intern = true ∧
    ISP.implementsPaidEmployee .developer = true ∧
    ISP.Call.wellTyped (.processPayroll .developer) = true ∧
    ISP.implementsPaidEmployee .manager = true ∧
    ISP.Call.wellTyped (.processPayroll .manager) = true := by
  decide

/-- C10 `employee.getSalary` needs a non-nil role: on the zero-value
employee the delegating call faults (returns no integer), and in general
it returns an integer exactly when the role field is set. -/
theorem getSalary_requires_role :
    OCP.employee.getSalary { name := "", role := none } = none ∧
    (∀ em : OCP.employee, em.getSalary.isSome = em.role.isSome) := by
  refine ⟨rfl, ?_⟩
  intro em
  obtain ⟨n, r⟩ := em
  cases r <;> rfl

/-- C2 For each of the three backends, adding an employee and then
finding one by name prints the save line naming that backend and the
employee, and the fetch line followed by the found line naming the same
employee with salary 5000; concretely, on the MySQL backend, adding
Mohamed with salary 5000 emits a line containing both Mohamed and the
MySQL label, and finding Mohamed reports salary 5000. -/
theorem addFind_roundtrip :
    (∀ emp : DIP.Employee,
        (DIP.EmployeeManager.mk DIP.MySQLRepository).AddEmployee emp =
          ["💾 Saving employee \x27" ++ emp.Name ++ "\x27 to MySQL database"]) ∧
    (∀ name : String,
        (DIP.EmployeeManager.mk DIP.MySQLRepository).FindEmployee name =
          ["🔍 Fetching employee \x27" ++ name ++ "\x27 from MySQL database",
           "✅ Found employee: " ++ name ++ ", Salary: " ++ toString (5000 : Int)]) ∧
    (∀ emp : DIP.Employee,
        (DIP.EmployeeManager.mk DIP.PostgresRepository).AddEmployee emp =
          ["💾 Saving employee \x27" ++ emp.Name ++ "\x27 to PostgreSQL database"]) ∧
    (∀ name : String,
        (DIP.EmployeeManager.mk DIP.PostgresRepository).FindEmployee name =
          ["🔍 Fetching employee \x27" ++ name ++ "\x27 from PostgreSQL database",
           "✅ Found employee: " ++ name ++ ", Salary: " ++ toString (5000 : Int)]) ∧
    (∀ emp : DIP.Employee,
        (DIP.EmployeeManager.mk DIP.MongoRepository).AddEmployee emp =
          ["💾 Saving employee \x27" ++ emp.Name ++ "\x27 to MongoDB database"]) ∧
    (∀ name : String,
        (DIP.EmployeeManager.mk DIP.MongoRepository).FindEmployee name =
          ["🔍 Fetching employee \x27" ++ name ++ "\x27 from MongoDB database",
           "✅ Found employee: " ++ name ++ ", Salary: " ++ toString (5000 : Int)]) ∧
    (DIP.EmployeeManager.mk DIP.MySQLRepository).AddEmployee
        { Name := "Mohamed", Salary := 5000 } =
      ["💾 Saving employee \x27Mohamed\x27 to MySQL database"] ∧
    DIP.strContains "💾 Saving employee \x27Mohamed\x27 to MySQL database" "Mohamed" ∧
    DIP.strContains "💾 Saving employee \x27Mohamed\x27 to MySQL database" "MySQL" ∧
    (DIP.EmployeeManager.mk DIP.MySQLRepository).FindEmployee "Mohamed" =
      ["🔍 Fetching employee \x27Mohamed\x27 from MySQL database",
       "✅ Found employee: Mohamed, Salary: 5000"] :=
  ⟨fun _ => rfl, fun _ => rfl, fun _ => rfl, fun _ => rfl, fun _ => rfl,
   fun _ => rfl, by decide, by decide, by decide, by decide⟩

/-- C8 `printEmployeeInfo` always prints the single line
`Name: <name>, Salary: <salary>` for any `baseEmployee` value, so two
implementers reporting the same data produce identical output: the
consumer's control flow and output shape never depend on which
implementer is passed. -/
theorem printEmployeeInfo_uniform :
    (∀ em : LSP.baseEmployee,
        LSP.printEmployeeInfo em =
          ["Name: " ++ em.getName ++ ", Salary: " ++ toString em.getSalary]) ∧
    (∀ em : LSP.baseEmployee, (LSP.printEmployeeInfo em).length = 1) ∧
    (∀ (ft : LSP.fullTimeEmployee) (cem : LSP.contractorEmployee),
        ft.getName = cem.getName → ft.getSalary = cem.getSalary →
          LSP.printEmployeeInfo (.fullTime ft) =
            LSP.printEmployeeInfo (.contractor cem)) := by
  refine ⟨fun em => rfl, fun em => rfl, ?_⟩
  intro ft cem hn hs
  simp only [LSP.printEmployeeInfo, LSP.baseEmployee.getName,
    LSP.baseEmployee.getSalary, hn, hs]

/-- C8 witness: the driver's full-time employee and a contractor with the
same name and the same computed salary print the same line. -/
theorem printEmployeeInfo_uniform_witness :
    LSP.printEmployeeInfo (.fullTime ⟨"Mohamed", 1200⟩) =
      LSP.printEmployeeInfo (.contractor ⟨"Mohamed", 120, 10⟩) :=
  printEmployeeInfo_uniform.2.2 ⟨"Mohamed", 1200⟩ ⟨"Mohamed", 120, 10⟩
    rfl (by decide)
